import Mathlib

/-!
Verification of the real-time call client (`RealtimeCall.tsx`).

The component is embedded shallowly:
* audio samples are modelled by their 32-bit IEEE-754 bit patterns, i.e.
  natural numbers below `2 ^ 32`; wire bytes are natural numbers below `256`;
* the component's mutable refs (`wsRef`, `audioCtxRef`, `inputNodeRef`,
  `mediaStreamRef`, `reconnectTimeoutRef`) and React state (`isConnected`,
  `status`) form a record `CallState`;
* the browser resources a `join` allocates (socket, audio context, media
  stream, script-processor node) are identified by numeric ids drawn from a
  counter `nextId`, so that allocation of a fresh handle is observable;
* the asynchronous control flow of `joinCall` is split at its single `await`
  (`getUserMedia`): `joinPhase1` is the synchronous prefix, `joinPhase2` the
  resumption, and event handlers (`onopen`, `onerror`, `onmessage`,
  `onaudioprocess`) are separate state transformers.
-/

namespace RealtimeCall

/-! ## FrameCodec: the wire representation of an audio block

The encode path (`processor.onaudioprocess`) copies the capture buffer into a
fresh `Float32Array` and sends its underlying bytes; the decode path
(`ws.onmessage`) constructs a `Float32Array` over the received bytes.  A
`Float32Array` view over a buffer whose byte length is not a multiple of 4
raises a `RangeError`. -/

/-- The four little-endian bytes of one 32-bit sample bit pattern. -/
def wordToBytes (s : Nat) : List Nat :=
  [s % 256, s / 256 % 256, s / 65536 % 256, s / 16777216 % 256]

/-- Serialise a block of 32-bit samples to wire bytes: raw little-endian
float32 layout, no header (the byte image of the `Float32Array` that
`onaudioprocess` copies the input into and sends). -/
def encode : List Nat → List Nat
  | [] => []
  | s :: rest => wordToBytes s ++ encode rest

/-- The spec's error taxonomy entry for an inbound payload whose byte length
is not a multiple of 4 (in the browser, the `RangeError` thrown by the
`Float32Array` constructor). -/
inductive DecodeError
  | MalformedFrame
deriving DecidableEq, Repr

/-- Regroup wire bytes into 32-bit little-endian words, four bytes at a
time (the sample view a `Float32Array` constructed over the buffer gives). -/
def bytesToWords : List Nat → List Nat
  | b0 :: b1 :: b2 :: b3 :: rest =>
      (b0 + 256 * b1 + 65536 * b2 + 16777216 * b3) :: bytesToWords rest
  | _ => []

/-- Decode wire bytes into an audio block: a `Float32Array` view requires the
byte length to be a multiple of 4 and otherwise fails. -/
def decode (bytes : List Nat) : Except DecodeError (List Nat) :=
  if bytes.length % 4 = 0 then .ok (bytesToWords bytes)
  else .error .MalformedFrame

/-! ## Session state

`CallState` gathers the component's refs and React state.  Handles are
numeric ids minted from `nextId`, so that whether an operation allocates a
fresh handle is visible in the model. -/

/-- `WebSocket.readyState` constants. -/
inductive WsReadyState
  | CONNECTING
  | OPEN
  | CLOSING
  | CLOSED
deriving DecidableEq, Repr

/-- A WebSocket handle: its id, the url it was constructed with, and its
current ready state (the ready state is owned by the browser). -/
structure Socket where
  id : Nat
  url : String
  readyState : WsReadyState
deriving DecidableEq, Repr

/-- A `getUserMedia` rejection (permission denied or no device). -/
structure MicError where
  message : String
deriving DecidableEq, Repr

/-- The component's state: the five refs plus the `isConnected` and `status`
React state, and the id counter for freshly allocated handles. -/
structure CallState where
  isConnected : Bool
  status : String
  ws : Option Socket
  audioCtx : Option Nat
  inputNode : Option Nat
  mediaStream : Option Nat
  reconnectTimeout : Option Nat
  nextId : Nat
deriving DecidableEq, Repr

/-- The fixed retry delay scheduled by `ws.onerror` (milliseconds). -/
def retryDelayMs : Nat := 3000

/-- The component's initial state: nothing connected, all refs null. -/
def initState : CallState :=
  { isConnected := false
    status := "🔌 Not connected"
    ws := none
    audioCtx := none
    inputNode := none
    mediaStream := none
    reconnectTimeout := none
    nextId := 0 }

/-- `cleanup`: disconnects and nulls the input node, closes and nulls the
audio context, closes and nulls the socket, stops and nulls the media
stream tracks, clears and nulls the reconnect timer, then resets
`isConnected` and `status`. -/
def cleanup (s : CallState) : CallState :=
  { s with
    inputNode := none
    audioCtx := none
    ws := none
    mediaStream := none
    reconnectTimeout := none
    isConnected := false
    status := "🔌 Not connected" }

/-- The url rewrite `apiUrl.replace(/^http/, "ws")`: one anchored
replacement of a leading `http` by `ws`. -/
def httpToWs (u : String) : String :=
  match u.data with
  | 'h' :: 't' :: 't' :: 'p' :: rest => String.mk ('w' :: 's' :: rest)
  | _ => u

/-- The socket url `<rewritten apiUrl>/ws/<roomId>/<userId>`. -/
def wsUrlOf (apiUrl roomId userId : String) : String :=
  httpToWs apiUrl ++ "/ws/" ++ roomId ++ "/" ++ userId

/-- The synchronous prefix of `joinCall`, up to the `await` on
`getUserMedia`: runs `cleanup`, sets the requesting-microphone status,
constructs the WebSocket (ready state `CONNECTING`; its handlers are
modelled by `handleOpen`, `handleError`, `handleMessage`), stores it in
`wsRef`, then constructs the `AudioContext` and stores it in
`audioCtxRef`. -/
def joinPhase1 (apiUrl roomId userId : String) (s0 : CallState) : CallState :=
  let s1 := cleanup s0
  let s2 := { s1 with status := "🎤 Requesting microphone..." }
  let s3 := { s2 with
    ws := some { id := s2.nextId
                 url := wsUrlOf apiUrl roomId userId
                 readyState := .CONNECTING }
    nextId := s2.nextId + 1 }
  { s3 with audioCtx := some s3.nextId, nextId := s3.nextId + 1 }

/-- The resumption of `joinCall` after the `await` on `getUserMedia`.  On
rejection, the `catch` block only sets the error status.  On success, the
stream is stored in `mediaStreamRef`, a script-processor node is created
from the local `audioCtx` variable and stored in `inputNodeRef`, the graph
is connected, and `isConnected`/`status` are set. -/
def joinPhase2 (roomId : String) (mic : Except MicError Unit)
    (s : CallState) : CallState :=
  match mic with
  | .error err => { s with status := "❌ Mic error: " ++ err.message }
  | .ok _ =>
      let s1 := { s with mediaStream := some s.nextId, nextId := s.nextId + 1 }
      let s2 := { s1 with inputNode := some s1.nextId, nextId := s1.nextId + 1 }
      { s2 with
        isConnected := true
        status := "✅ Connected to room \"" ++ roomId ++ "\"" }

/-- `joinCall`, run without interleaving: returns immediately if
`isConnected`, otherwise runs the synchronous prefix and then the
resumption with the given `getUserMedia` outcome. -/
def joinCall (apiUrl roomId userId : String) (mic : Except MicError Unit)
    (s : CallState) : CallState :=
  if s.isConnected then s
  else joinPhase2 roomId mic (joinPhase1 apiUrl roomId userId s)

/-- `leaveCall` just runs `cleanup`. -/
def leaveCall (s : CallState) : CallState :=
  cleanup s

/-! ## Transport events -/

/-- The `ws.onopen` handler: only updates the status string. -/
def handleOpen (s : CallState) : CallState :=
  { s with status := "✅ WebSocket ready, starting mic..." }

/-- The browser completes the connection: the socket's ready state becomes
`OPEN` and the `onopen` handler runs. -/
def socketOpens (s : CallState) : CallState :=
  handleOpen { s with ws := s.ws.map fun w => { w with readyState := .OPEN } }

/-- The `ws.onerror` handler: sets the retrying status and schedules
`joinCall` after the fixed 3-second delay, storing the timer in
`reconnectTimeoutRef`. -/
def handleError (s : CallState) : CallState :=
  { s with
    status := "❌ Backend not ready - retrying in 3s..."
    reconnectTimeout := some retryDelayMs }

/-- The transport connection closes: the component installs no `onclose`
handler, so only the browser-owned ready state of the socket changes; no
component code runs. -/
def socketClosed (s : CallState) : CallState :=
  { s with ws := s.ws.map fun w => { w with readyState := .CLOSED } }

/-- The observable outcome of one inbound frame. -/
inductive PlayResult
  | played (samples : List Nat)
  | droppedNoCtx
  | droppedMalformed
deriving DecidableEq, Repr

/-- The `ws.onmessage` handler: returns early if `audioCtxRef` is null;
otherwise views the received bytes as a `Float32Array` and schedules one-shot
playback.  A malformed length throws inside the promise chain and is caught
by `.catch(console.error)`: the frame is dropped and logged. -/
def handleMessage (bytes : List Nat) (s : CallState) : CallState × PlayResult :=
  match s.audioCtx with
  | none => (s, .droppedNoCtx)
  | some _ =>
      match decode bytes with
      | .ok samples => (s, .played samples)
      | .error _ => (s, .droppedMalformed)

/-- The `processor.onaudioprocess` capture callback: if `wsRef` is null or
its ready state is not `OPEN`, it returns without sending; otherwise it
copies the input block into a fresh `Float32Array` and sends its bytes.
The second component is the frame handed to `send`, if any. -/
def onaudioprocess (input : List Nat) (s : CallState) :
    CallState × Option (List Nat) :=
  match s.ws with
  | none => (s, none)
  | some w =>
      if w.readyState = .OPEN then (s, some (encode input)) else (s, none)

/-! ## Concrete runs used by the theorems -/

/-- A fresh `joinCall` from the initial state in which `getUserMedia`
resolves while the socket is still `CONNECTING` (no open event has been
processed). -/
def joinBeforeOpen : CallState :=
  joinCall "http://localhost:8000" "demo-room" "user-1" (.ok ()) initState

/-- A session that has reached Ready: a fresh join whose socket then opens. -/
def readyExample : CallState :=
  socketOpens joinBeforeOpen

theorem encode_length (b : List Nat) : (encode b).length = 4 * b.length := by
  induction b with
  | nil => rfl
  | cons s rest ih =>
      simp [encode, wordToBytes, ih]
      omega

theorem bytesToWords_encode (b : List Nat) (h : ∀ x ∈ b, x < 2 ^ 32) :
    bytesToWords (encode b) = b := by
  induction b with
  | nil => rfl
  | cons s rest ih =>
      have hs : s < 2 ^ 32 := h s (by simp)
      have hrest : ∀ x ∈ rest, x < 2 ^ 32 := fun x hx => h x (by simp [hx])
      show bytesToWords
          (s % 256 :: s / 256 % 256 :: s / 65536 % 256 :: s / 16777216 % 256
            :: encode rest) = s :: rest
      rw [bytesToWords, ih hrest]
      have : s % 256 + 256 * (s / 256 % 256) + 65536 * (s / 65536 % 256)
          + 16777216 * (s / 16777216 % 256) = s := by omega
      rw [this]

/-- C1: decoding the wire bytes produced by encoding an audio block yields
the block exactly, bit pattern for bit pattern: the encode path (copying the
capture buffer into a `Float32Array` and sending its bytes) composed with
the decode path (a `Float32Array` over the received bytes) is the identity
on sample sequences. -/
theorem C1_encode_decode_roundtrip (b : List Nat) (h : ∀ x ∈ b, x < 2 ^ 32) :
    decode (encode b) = .ok b := by
  have hlen : (encode b).length % 4 = 0 := by
    rw [encode_length]; omega
  simp [decode, hlen, bytesToWords_encode b h]

/-- C1 witness: the round trip evaluated on a concrete three-sample block. -/
theorem C1_encode_decode_roundtrip_witness :
    decode (encode [0, 1, 4294967295]) = .ok [0, 1, 4294967295] :=
  C1_encode_decode_roundtrip [0, 1, 4294967295] (by decide)

/-- C2: an inbound payload whose byte length is not a multiple of 4 makes
the decode step fail with `MalformedFrame`; the message handler drops the
single frame without playing anything, leaves the session state unchanged,
and no unhandled fault escapes (the handler is total). -/
theorem C2_malformed_frame_dropped (bytes : List Nat) (s : CallState)
    (h : bytes.length % 4 ≠ 0) :
    decode bytes = .error .MalformedFrame ∧
    (handleMessage bytes s).1 = s ∧
    ∀ samples, (handleMessage bytes s).2 ≠ .played samples := by
  have hdec : decode bytes = .error .MalformedFrame := by
    simp [decode, h]
  refine ⟨hdec, ?_, ?_⟩ <;>
    · unfold handleMessage
      cases s.audioCtx <;> simp [hdec]

/-- C2 witness: a five-byte payload is rejected and dropped. -/
theorem C2_malformed_frame_dropped_witness :
    decode [0, 0, 0, 0, 7] = .error .MalformedFrame ∧
    (handleMessage [0, 0, 0, 0, 7] initState).1 = initState ∧
    ∀ samples, (handleMessage [0, 0, 0, 0, 7] initState).2 ≠ .played samples :=
  C2_malformed_frame_dropped [0, 0, 0, 0, 7] initState (by decide)

/-- C3: contrary to the claim (and to the component's own comments "Wait
for WebSocket to be ready before mic" and "Start mic AFTER WebSocket is
open"), a fresh `joinCall` in which `getUserMedia` resolves before the
socket opens starts capture and reports the session connected while the
socket is still `CONNECTING`: the open event only updates the status
string, and neither capture start nor `isConnected` waits for it. -/
theorem C3_capture_starts_before_transport_ready :
    joinBeforeOpen.isConnected = true ∧
    joinBeforeOpen.inputNode = some 3 ∧
    joinBeforeOpen.mediaStream = some 2 ∧
    joinBeforeOpen.ws =
      some { id := 0
             url := "ws://localhost:8000/ws/demo-room/user-1"
             readyState := .CONNECTING } :=
  ⟨rfl, rfl, rfl, rfl⟩

/-- C4 counterexample: from a reachable Ready state, a transport close runs
no component code (there is no `onclose` handler), so the session does not
transition to Idle — `isConnected` stays true and the capture node stays
referenced — and a transport error in the Ready state does schedule the
automatic 3-second retry. -/
theorem C4_close_in_ready_counterexample :
    (socketClosed readyExample).isConnected = true ∧
    (socketClosed readyExample).inputNode = some 3 ∧
    (handleError readyExample).reconnectTimeout = some 3000 :=
  ⟨rfl, rfl, rfl⟩

/-- C4 amended: when the transport connection closes, the component takes
no action in any state, Ready included — no handler is installed for the
close event, so the connected flag, capture node, playback context, media
stream, and pending-retry timer are all unchanged (no teardown, no
transition to Idle); and a transport error event schedules the fixed
3-second automatic retry in every state, Ready included. -/
theorem C4_close_no_transition_error_retries (s : CallState) :
    (socketClosed s).isConnected = s.isConnected ∧
    (socketClosed s).inputNode = s.inputNode ∧
    (socketClosed s).audioCtx = s.audioCtx ∧
    (socketClosed s).mediaStream = s.mediaStream ∧
    (socketClosed s).reconnectTimeout = s.reconnectTimeout ∧
    (handleError s).reconnectTimeout = some retryDelayMs := by
  simp [socketClosed, handleError]

/-- C5: calling `joinCall` while the session is already connected returns
immediately: the state is unchanged, so in particular no second socket,
capture handle, or playback context is allocated (the id counter does not
move). -/
theorem C5_join_while_ready_noop (apiUrl roomId userId : String)
    (mic : Except MicError Unit) (s : CallState)
    (h : s.isConnected = true) :
    joinCall apiUrl roomId userId mic s = s := by
  simp [joinCall, h]

/-- C5 witness: re-entrant join on a reachable Ready state is the
identity. -/
theorem C5_join_while_ready_noop_witness :
    readyExample.isConnected = true ∧
    joinCall "http://localhost:8000" "demo-room" "user-2" (.ok ())
      readyExample = readyExample :=
  ⟨rfl, C5_join_while_ready_noop "http://localhost:8000" "demo-room" "user-2"
    (.ok ()) readyExample rfl⟩

/-- C6: `leaveCall` from any state nulls the capture node, playback
context, socket, media stream, and pending retry timer, clears the
connected flag and resets the status; it is idempotent, and from the
initial Idle state it is a no-op. -/
theorem C6_leave_idempotent_teardown (s : CallState) :
    (leaveCall s).inputNode = none ∧
    (leaveCall s).audioCtx = none ∧
    (leaveCall s).ws = none ∧
    (leaveCall s).mediaStream = none ∧
    (leaveCall s).reconnectTimeout = none ∧
    (leaveCall s).isConnected = false ∧
    leaveCall (leaveCall s) = leaveCall s ∧
    leaveCall initState = initState := by
  simp [leaveCall, cleanup, initState]

/-- C8: a capture block delivered while the socket reference is null or its
ready state is not `OPEN` is silently dropped: the callback leaves the
state unchanged and sends nothing (and, being total, never throws). -/
theorem C8_send_dropped_when_not_open (input : List Nat) (s : CallState)
    (h : ∀ w, s.ws = some w → w.readyState ≠ WsReadyState.OPEN) :
    onaudioprocess input s = (s, none) := by
  unfold onaudioprocess
  cases hw : s.ws with
  | none => rfl
  | some w => simp [h w hw]

/-- C8 witness: a capture block in the initial state (socket reference
null) is dropped. -/
theorem C8_send_dropped_when_not_open_witness :
    onaudioprocess [1, 2, 3] initState = (initState, none) :=
  C8_send_dropped_when_not_open [1, 2, 3] initState
    (fun w hw => by simp [initState] at hw)

/-- C9: when `getUserMedia` fails during a join from a non-connected state,
the attempt terminates with the mic-error status surfaced to the caller, the
session is not marked connected, and no retry timer is scheduled — the
fixed-delay retry is scheduled only by the transport error handler. -/
theorem C9_mic_error_no_retry (apiUrl roomId userId : String) (e : MicError)
    (s : CallState) (h : s.isConnected = false) :
    (joinCall apiUrl roomId userId (.error e) s).status =
      "❌ Mic error: " ++ e.message ∧
    (joinCall apiUrl roomId userId (.error e) s).reconnectTimeout = none ∧
    (joinCall apiUrl roomId userId (.error e) s).isConnected = false := by
  simp [joinCall, h, joinPhase1, joinPhase2, cleanup]

/-- C9 witness: a permission-denied join from the initial state surfaces the
mic error and schedules no retry. -/
theorem C9_mic_error_no_retry_witness :
    (joinCall "http://localhost:8000" "demo-room" "user-1"
      (.error { message := "Permission denied" }) initState).status =
      "❌ Mic error: " ++ "Permission denied" ∧
    (joinCall "http://localhost:8000" "demo-room" "user-1"
      (.error { message := "Permission denied" }) initState).reconnectTimeout
      = none ∧
    (joinCall "http://localhost:8000" "demo-room" "user-1"
      (.error { message := "Permission denied" }) initState).isConnected
      = false :=
  C9_mic_error_no_retry "http://localhost:8000" "demo-room" "user-1"
    { message := "Permission denied" } initState rfl

/-- C10: a join whose `getUserMedia` rejects is exactly the synchronous
prefix with only the status string replaced: the socket and audio context
created earlier in that same join are still referenced (not released), so
the failed join is not atomic with respect to resource acquisition. -/
theorem C10_failed_join_keeps_handles (apiUrl roomId userId : String)
    (e : MicError) (s : CallState) (h : s.isConnected = false) :
    joinCall apiUrl roomId userId (.error e) s =
      { joinPhase1 apiUrl roomId userId s with
        status := "❌ Mic error: " ++ e.message } ∧
    (joinPhase1 apiUrl roomId userId s).ws ≠ none ∧
    (joinPhase1 apiUrl roomId userId s).audioCtx ≠ none := by
  refine ⟨?_, ?_, ?_⟩ <;> simp [joinCall, h, joinPhase1, joinPhase2, cleanup]

/-- C10 witness: the permission-denied join from the initial state keeps
the freshly created socket and audio context and only rewrites the
status. -/
theorem C10_failed_join_keeps_handles_witness :
    joinCall "http://localhost:8000" "demo-room" "user-1"
      (.error { message := "Permission denied" }) initState =
      { joinPhase1 "http://localhost:8000" "demo-room" "user-1" initState with
        status := "❌ Mic error: " ++ "Permission denied" } ∧
    (joinPhase1 "http://localhost:8000" "demo-room" "user-1" initState).ws
      ≠ none ∧
    (joinPhase1 "http://localhost:8000" "demo-room" "user-1" initState).audioCtx
      ≠ none :=
  C10_failed_join_keeps_handles "http://localhost:8000" "demo-room" "user-1"
    { message := "Permission denied" } initState rfl

end RealtimeCall
